import Mathlib

/-!
Shallow embedding of `vsix-downloader.py` (single-file VS Code extension
downloader) and proofs about the claims of its specification.

Conventions of the embedding:
* Python `str` is modelled by `String`; parsing helpers work on `List Char`.
* Byte strings are `List Nat` (each element `< 256` where it matters).
* The filesystem is a partial map `FS := String → Option (List Nat)` from
  paths to file contents; directories are not modelled (they carry no data
  the program reads back).
* Fallible Python code returns `Except PyErr` (pure helpers) or `Res α`
  (stateful pipeline steps, carrying the filesystem in both outcomes, the
  way an exception leaves the real filesystem behind).
* External collaborators that the source delegates to (the HTTP opener,
  `gzip` decompression, `zipfile` container validation and entry codec)
  are fields of an `Env` record, mirroring the injectable-opener design of
  the source; the entry-level behaviour of `repack_zip` is the program's
  own loop and is modelled directly.
-/

/-- Python exception values raised by the program or its collaborators. -/
inductive PyErr where
  /-- `ValueError(msg)` -/
  | valueError (msg : String)
  /-- `URLError` / `HTTPError` from the transport collaborator. -/
  | transport (msg : String)
  /-- `OSError` from the filesystem. -/
  | osError (msg : String)
  /-- `gzip.BadGzipFile` or a mid-decompression failure. -/
  | badGzip (msg : String)
  /-- `zipfile.BadZipFile` while reading entries. -/
  | badZip (msg : String)
  deriving DecidableEq, Repr

/-! ## Character and string helpers (models of Python `str` methods) -/

/-- Lower-casing of a character, ASCII range (Python `str.lower` restricted
to the ASCII header/parameter names this program compares). -/
def pyLowerChar (c : Char) : Char :=
  if 'A' ≤ c ∧ c ≤ 'Z' then Char.ofNat (c.toNat + 32) else c

/-- Python `str.lower()` on the ASCII fragment used by the program. -/
def pyLower (s : String) : String :=
  String.mk (s.toList.map pyLowerChar)

/-- Whitespace set of Python `str.strip()` (ASCII fragment). -/
def pyIsSpace (c : Char) : Bool :=
  c = ' ' ∨ c = '\t' ∨ c = '\n' ∨ c = '\r' ∨ c = Char.ofNat 11 ∨ c = Char.ofNat 12

/-- Python `str.strip()`: drop leading and trailing whitespace. -/
def pyStrip (s : String) : String :=
  String.mk (((s.toList.dropWhile pyIsSpace).reverse.dropWhile pyIsSpace).reverse)

/-- Python `str.strip('"')`: drop all leading and trailing double quotes. -/
def pyStripQuotes (s : String) : String :=
  String.mk (((s.toList.dropWhile (· = '"')).reverse.dropWhile (· = '"')).reverse)

/-- Split a character list at the first occurrence of `sep`
(Python `s.split(sep, 1)` when it returns two pieces; `none` when `sep`
does not occur). -/
def splitOnceChar (sep : Char) : List Char → Option (List Char × List Char)
  | [] => none
  | c :: cs =>
    if c = sep then some ([], cs)
    else (splitOnceChar sep cs).map (fun p => (c :: p.1, p.2))

/-- Python `s.split(".", 1)` unpacked into `publisher, package`;
`none` models the `ValueError` of unpacking a 1-element list. -/
def splitDot (s : String) : Option (String × String) :=
  (splitOnceChar '.' s.toList).map (fun p => (String.mk p.1, String.mk p.2))

/-- All characters of `s` strictly before the first `sep` (if any). -/
def beforeChar (sep : Char) (s : String) : String :=
  String.mk (s.toList.takeWhile (· ≠ sep))

/-- All characters of `s` strictly after the first `sep` (if any). -/
def afterChar (sep : Char) (s : String) : String :=
  String.mk ((s.toList.dropWhile (· ≠ sep)).drop 1)

/-- Occurrence of `pat` as a prefix of some suffix of `l`. -/
def isInfixList (pat : List Char) : List Char → Bool
  | [] => pat.isPrefixOf []
  | c :: cs => pat.isPrefixOf (c :: cs) || isInfixList pat cs

/-- Occurrence test for a substring, Python `pat in s`. -/
def containsSubstr (s pat : String) : Bool :=
  isInfixList pat.toList s.toList

/-- Python truthiness of an `Optional[str]`: `None` and `""` are falsy. -/
def optTruthy : Option String → Bool
  | none => false
  | some s => s ≠ ""

/-- Split a character list on every occurrence of `sep`
(Python `s.split(sep)` for a one-character separator; `""` splits to `[""]`). -/
def splitSepList (sep : Char) : List Char → List (List Char)
  | [] => [[]]
  | c :: cs =>
    if c = sep then [] :: splitSepList sep cs
    else
      match splitSepList sep cs with
      | [] => [[c]]
      | h :: t => (c :: h) :: t

/-- Decidable equality for `Except`, needed to evaluate run results. -/
instance {ε α : Type} [DecidableEq ε] [DecidableEq α] : DecidableEq (Except ε α) := fun a b =>
  match a, b with
  | Except.ok x, Except.ok y =>
    if h : x = y then Decidable.isTrue (by rw [h]) else Decidable.isFalse (by simp [h])
  | Except.error e, Except.error f =>
    if h : e = f then Decidable.isTrue (by rw [h]) else Decidable.isFalse (by simp [h])
  | Except.ok _, Except.error _ => Decidable.isFalse (by simp)
  | Except.error _, Except.ok _ => Decidable.isFalse (by simp)

/-! ## Data model (`VsixSpec`) and URL construction -/

/-- Base URL of the Marketplace gallery API (`MARKETPLACE_VSPACKAGE_BASE`). -/
def MARKETPLACE_VSPACKAGE_BASE : String :=
  "https://marketplace.visualstudio.com/_apis/public/gallery"

/-- Dataclass `VsixSpec`: extension identifier, version and optional
target platform. -/
structure VsixSpec where
  unique_identifier : String
  version : String
  target_platform : Option String
  deriving DecidableEq, Repr

/-- Default of the dataclass field `target_platform: str | None = "linux-x64"`. -/
def defaultTargetPlatform : Option String := some "linux-x64"

/-- Construction of a `VsixSpec` without specifying `target_platform`
(the dataclass fills in the field default). -/
def VsixSpec.withDefaultPlatform (uid ver : String) : VsixSpec :=
  ⟨uid, ver, defaultTargetPlatform⟩

/-- Core URL `f"{base}/publishers/{publisher}/vsextensions/{package}/{spec.version}/vspackage"`. -/
def vspackage_core_url (base pub pkg ver : String) : String :=
  base ++ "/publishers/" ++ pub ++ "/vsextensions/" ++ pkg ++ "/" ++ ver ++ "/vspackage"

/-- Query-string appended by `if spec.target_platform: url += f"?targetPlatform={...}"`;
empty when the field is `None` or `""` (Python truthiness). -/
def platform_query : Option String → String
  | none => ""
  | some tp => if tp = "" then "" else "?targetPlatform=" ++ tp

/-- `build_vspackage_url`: split the identifier at the first dot into
publisher and package (raising `ValueError` when there is no dot, as the
tuple unpacking of `split(".", 1)` does), then assemble the URL. -/
def build_vspackage_url (spec : VsixSpec) (base : String) : Except PyErr String :=
  match splitDot spec.unique_identifier with
  | none => Except.error (PyErr.valueError "not enough values to unpack (expected 2, got 1)")
  | some (publisher, package) =>
    Except.ok (vspackage_core_url base publisher package spec.version
      ++ platform_query spec.target_platform)

/-! ## Percent-decoding (model of `urllib.parse.unquote`) -/

/-- The apostrophe character, used by the RFC 5987 marker. -/
def apos : Char := Char.ofNat 39

/-- Unicode replacement character U+FFFD, emitted by `errors="replace"`. -/
def replChar : Char := Char.ofNat 0xFFFD

/-- Value of a hexadecimal digit (both cases), `none` for other characters. -/
def hexVal (c : Char) : Option Nat :=
  if '0' ≤ c ∧ c ≤ '9' then some (c.toNat - '0'.toNat)
  else if 'a' ≤ c ∧ c ≤ 'f' then some (c.toNat - 'a'.toNat + 10)
  else if 'A' ≤ c ∧ c ≤ 'F' then some (c.toNat - 'A'.toNat + 10)
  else none

/-- Is a byte a UTF-8 continuation byte (`0x80`–`0xBF`)? -/
def isContByte (b : Nat) : Bool := 0x80 ≤ b ∧ b ≤ 0xBF

/-- One step of strict UTF-8 decoding: decoded character (replacement on
invalid input) and number of bytes consumed (at least one). -/
def utf8Step (b : Nat) (bs : List Nat) : Char × Nat :=
  if b < 0x80 then (Char.ofNat b, 1)
  else if 0xC2 ≤ b ∧ b ≤ 0xDF then
    match bs with
    | b1 :: _ =>
      if isContByte b1 then (Char.ofNat ((b - 0xC0) * 64 + (b1 - 0x80)), 2)
      else (replChar, 1)
    | [] => (replChar, 1)
  else if 0xE0 ≤ b ∧ b ≤ 0xEF then
    match bs with
    | b1 :: b2 :: _ =>
      let okB1 :=
        if b = 0xE0 then 0xA0 ≤ b1 ∧ b1 ≤ 0xBF
        else if b = 0xED then 0x80 ≤ b1 ∧ b1 ≤ 0x9F
        else isContByte b1
      if okB1 ∧ isContByte b2 then
        (Char.ofNat ((b - 0xE0) * 4096 + (b1 - 0x80) * 64 + (b2 - 0x80)), 3)
      else (replChar, 1)
    | _ => (replChar, 1)
  else if 0xF0 ≤ b ∧ b ≤ 0xF4 then
    match bs with
    | b1 :: b2 :: b3 :: _ =>
      let okB1 :=
        if b = 0xF0 then 0x90 ≤ b1 ∧ b1 ≤ 0xBF
        else if b = 0xF4 then 0x80 ≤ b1 ∧ b1 ≤ 0x8F
        else isContByte b1
      if okB1 ∧ isContByte b2 ∧ isContByte b3 then
        (Char.ofNat ((b - 0xF0) * 262144 + (b1 - 0x80) * 4096 + (b2 - 0x80) * 64 + (b3 - 0x80)), 4)
      else (replChar, 1)
    | _ => (replChar, 1)
  else (replChar, 1)

/-- Fuelled UTF-8 decoding loop; the fuel is an upper bound on the number
of decoded characters (each step consumes at least one byte). -/
def utf8DecodeAux : Nat → List Nat → List Char
  | 0, _ => []
  | _, [] => []
  | Nat.succ fuel, b :: bs =>
    let st := utf8Step b bs
    st.1 :: utf8DecodeAux fuel ((b :: bs).drop st.2)

/-- Decode a byte list as UTF-8 with `errors="replace"`. -/
def utf8Decode (bs : List Nat) : List Char :=
  utf8DecodeAux bs.length bs

/-- Tokenize a character list for percent-decoding: `%XX` hex escapes and
plain ASCII characters become bytes (`Sum.inl`), non-ASCII characters pass
through (`Sum.inr`), following `urllib.parse.unquote`, which only
percent-decodes inside ASCII runs. -/
def pctTokens : List Char → List (Sum Nat Char)
  | [] => []
  | '%' :: h1 :: h2 :: rest =>
    match hexVal h1, hexVal h2 with
    | some v1, some v2 => Sum.inl (v1 * 16 + v2) :: pctTokens rest
    | _, _ => Sum.inl 37 :: pctTokens (h1 :: h2 :: rest)
  | c :: rest =>
    (if c.toNat < 128 then Sum.inl c.toNat else Sum.inr c) :: pctTokens rest

/-- Flush runs of decoded bytes through the UTF-8 decoder, passing
non-ASCII characters through unchanged; `pending` accumulates the current
byte run. -/
def pctEmit : List (Sum Nat Char) → List Nat → List Char
  | [], pending => utf8Decode pending
  | Sum.inl b :: rest, pending => pctEmit rest (pending ++ [b])
  | Sum.inr c :: rest, pending => utf8Decode pending ++ c :: pctEmit rest []

/-- Model of `urllib.parse.unquote(s)` (UTF-8, `errors="replace"`). -/
def unquote (s : String) : String :=
  String.mk (pctEmit (pctTokens s.toList) [])

/-! ## Header access and Content-Disposition parsing -/

/-- Response headers: an ordered list of name/value pairs. -/
def Headers : Type := List (String × String)

/-- `_header_get`: first value whose name matches case-insensitively. -/
def header_get (headers : Headers) (nm : String) : Option String :=
  ((headers.find? (fun kv => pyLower kv.1 = pyLower nm))).map (·.2)

/-- Parameter list of a Content-Disposition header: the `;`-separated
parts after the first one, split at their first `=`, keys lower-cased and
stripped, values stripped of whitespace and then of double quotes
(parts without `=` are skipped). -/
def cdParams (header : String) : List (String × String) :=
  let parts := (splitSepList ';' header.toList).map (fun l => pyStrip (String.mk l))
  (parts.drop 1).filterMap (fun p =>
    match splitOnceChar '=' p.toList with
    | none => none
    | some (k, v) =>
      some (pyLower (pyStrip (String.mk k)), pyStripQuotes (pyStrip (String.mk v))))

/-- Split a character list at the first occurrence of the pattern `pat`,
returning the parts before and after it (Python `v.split(pat, 1)` when the
pattern occurs). -/
def splitAtPat (pat : List Char) : List Char → Option (List Char × List Char)
  | [] => if pat = [] then some ([], []) else none
  | c :: cs =>
    if pat.isPrefixOf (c :: cs) then some ([], (c :: cs).drop pat.length)
    else (splitAtPat pat cs).map (fun q => (c :: q.1, q.2))

/-- Case-insensitive prefix test (ASCII lowering on both sides, mirroring
`re.IGNORECASE` on an ASCII pattern). -/
def ciPrefix (pat l : List Char) : Bool :=
  (pat.map pyLowerChar).isPrefixOf (l.map pyLowerChar)

/-- Attempted match of the regex `filename="?([^";]+)"?` at the head of
`l`: the literal `filename=`, an optional opening quote, then a non-empty
maximal run of characters other than `"` and `;` (the capture).  When the
opening quote is present but the run after it is empty, backtracking to
the no-quote alternative also fails (the next character is the excluded
quote), so the whole position fails. -/
def cdTryAt (l : List Char) : Option (List Char) :=
  if ciPrefix "filename=".toList l then
    let rest := l.drop 9
    let rest2 := if rest.head? = some '"' then rest.drop 1 else rest
    let run := rest2.takeWhile (fun c => c ≠ '"' ∧ c ≠ ';')
    if run = [] then none else some run
  else none

/-- `re.search` of `_CD_FILENAME_RE`: leftmost position where the pattern
matches, returning the captured group. -/
def cdRegexName : List Char → Option (List Char)
  | [] => none
  | c :: cs =>
    match cdTryAt (c :: cs) with
    | some nm => some nm
    | none => cdRegexName cs

/-- `filename_from_content_disposition`: prefer the RFC 5987 extended
parameter `filename*` from the parameter list (percent-decoding the part
after the first `''` marker when present, else the whole value), otherwise
search the whole header with the plain-filename regex. -/
def filename_from_content_disposition : Option String → Option String
  | none => none
  | some header =>
    if header = "" then none
    else
      match (cdParams header).reverse.find? (fun kv => kv.1 = "filename*") with
      | some kv =>
        match splitAtPat [apos, apos] kv.2.toList with
        | some (_, enc) => some (unquote (String.mk enc))
        | none => some (unquote kv.2)
      | none => (cdRegexName header.toList).map String.mk

/-! ## Pure path model (POSIX `pathlib` fragment used by the program) -/

/-- Parsed components of a POSIX path: split on `/`, dropping empty
components and `.` (as `pathlib` parsing does; `..` is kept). Relative
paths only, which covers every call site of this program. -/
def pathComponents (s : String) : List String :=
  ((splitSepList '/' s.toList).map String.mk).filter (fun c => c ≠ "" ∧ c ≠ ".")

/-- `PurePosixPath(s).name`: last parsed component. -/
def pathName (s : String) : String :=
  (pathComponents s).getLastD ""

/-- `PurePosixPath(s).suffix`: from the last `.` of the name when it is
neither the first nor the last character, else empty. -/
def pathSuffix (s : String) : String :=
  let name := (pathName s).toList
  match name.reverse.findIdx? (· = '.') with
  | none => ""
  | some j =>
    let i := name.length - 1 - j
    if 0 < i ∧ i < name.length - 1 then String.mk (name.drop i) else ""

/-- Message of the `ValueError` raised by `with_suffix` on a path with an
empty name (Python: `f"{self!r} has an empty name"`). -/
def emptyNameMsg (p : String) : String :=
  "PosixPath(\x27" ++ p ++ "\x27) has an empty name"

/-- `Path(p).with_suffix(suffix)`: raises `ValueError` when the name is
empty; otherwise replaces the old suffix (or appends when there is none)
in the last component. -/
def withSuffix (p suffix : String) : Except PyErr String :=
  let name := pathName p
  if name = "" then Except.error (PyErr.valueError (emptyNameMsg p))
  else
    let old := pathSuffix p
    let newName :=
      if old = "" then name ++ suffix
      else String.mk (name.toList.take (name.length - old.length)) ++ suffix
    Except.ok (String.mk
      (List.intercalate ['/'] (((pathComponents p).dropLast ++ [newName]).map String.toList)))

/-! ## Filename decision (`safe_filename`, `default_vsix_name`,
`ensure_vsix_suffix`, `resolve_vsix_filename`) -/

/-- `safe_filename`: last path component, null bytes removed
(`.replace("\x00", "")` of a one-character pattern is a filter), whitespace
stripped; the fixed default when the result is empty. -/
def safe_filename (nm : String) : String :=
  let cleaned := pyStrip (String.mk ((pathName nm).toList.filter (· ≠ Char.ofNat 0)))
  if cleaned = "" then "download.vsix" else cleaned

/-- `default_vsix_name`: deterministic fallback
`f"{spec.unique_identifier}-{spec.version}{plat}.vsix"` where `plat` is
`f"-{spec.target_platform}"` when the field is truthy. -/
def default_vsix_name (spec : VsixSpec) : String :=
  let plat :=
    match spec.target_platform with
    | some tp => if tp = "" then "" else "-" ++ tp
    | none => ""
  spec.unique_identifier ++ "-" ++ spec.version ++ plat ++ ".vsix"

/-- `ensure_vsix_suffix`: keep a (case-insensitive) `.vsix` suffix, else
swap `.zip` for `.vsix`, else replace/append `.vsix`.  The `with_suffix`
call can raise `ValueError` when the path's name is empty. -/
def ensure_vsix_suffix (p : String) : Except PyErr String :=
  let suf := pyLower (pathSuffix p)
  if suf = ".vsix" then Except.ok p
  else if suf = ".zip" then withSuffix p ".vsix"
  else withSuffix p ".vsix"

/-- `resolve_vsix_filename`: server-provided Content-Disposition name
(sanitized) when present and non-empty (Python truthiness), else the
deterministic fallback; then force the `.vsix` suffix and take the final
path component. -/
def resolve_vsix_filename (spec : VsixSpec) (headers : Headers) : Except PyErr String :=
  let cd := header_get headers "Content-Disposition"
  let server_name := filename_from_content_disposition cd
  let chosen :=
    if optTruthy server_name then safe_filename (server_name.getD "")
    else default_vsix_name spec
  (ensure_vsix_suffix chosen).map pathName

/-! ## Filesystem model and streaming / atomic I/O -/

/-- The filesystem: a partial map from paths to byte contents. -/
def FS : Type := String → Option (List Nat)

/-- Write (create or truncate-and-write) a file. -/
def fsWrite (fs : FS) (p : String) (b : List Nat) : FS :=
  fun q => if q = p then some b else fs q

/-- `src.replace(dst)`: atomic rename of `src` onto `dst`, replacing any
existing file; `src` disappears. -/
def fsReplace (fs : FS) (src dst : String) : FS :=
  fun q => if q = dst then fs src else if q = src then none else fs q

/-- `p.unlink(missing_ok=True)`. -/
def fsRemove (fs : FS) (p : String) : FS :=
  fun q => if q = p then none else fs q

/-- Outcome of a stateful pipeline step: normal return or raised
exception, in both cases together with the filesystem left behind. -/
inductive Res (α : Type) where
  | ok (a : α) (fs : FS)
  | err (e : PyErr) (fs : FS)

/-- The filesystem component of a result, whichever the outcome. -/
def resFS {α : Type} : Res α → FS
  | Res.ok _ fs => fs
  | Res.err _ fs => fs

/-- `dest.with_suffix(dest.suffix + EXT)`: re-appending the path's own
suffix makes `with_suffix` a plain string append for every path whose
final component is non-empty (the only paths the pipeline builds). -/
def addExt (dest ext : String) : String := dest ++ ext

/-- The sibling temporary path `dest` + `".part"` used by atomic writes. -/
def partPath (dest : String) : String := addExt dest ".part"

/-- A chunk producer: the finite chunks it yields, then an optional
exception it raises after the last yielded chunk (the simulated
mid-stream fault of the specification; `none` = exhausts normally). -/
structure ChunkIter where
  chunks : List (List Nat)
  fault : Option PyErr
  deriving DecidableEq

/-- `atomic_write_bytes`: stream chunks into the sibling `.part` file
(parent-directory creation is a no-op in this file model), then atomically
rename it onto `dest` and return the total byte count.  A fault raised by
the producer after its chunks leaves the temporary file (holding every
yielded chunk) in place, the destination untouched, and re-raises. -/
def atomic_write_bytes (fs : FS) (dest : String) (it : ChunkIter) : Res Nat :=
  let tmp := partPath dest
  let written := it.chunks.flatten
  let total := (it.chunks.map List.length).sum
  let fs1 := fsWrite fs tmp written
  match it.fault with
  | some e => Res.err e fs1
  | none => Res.ok total (fsReplace fs1 tmp dest)

/-- `iter_file_chunks`: fixed-size chunking of an on-disk file; chunk
boundaries are invisible to every consumer (only the concatenation is),
so the model yields the contents as a single chunk. -/
def iter_file_chunks (contents : List Nat) : ChunkIter :=
  ⟨[contents], none⟩

/-- `_read_prefix(path, n)` on already-read contents. -/
def readFirstBytes (b : List Nat) (n : Nat) : List Nat := b.take n

/-! ## Byte previews (Python `bytes.__repr__`, used in error messages) -/

/-- Escape of one byte inside a bytes literal with quote character `q`. -/
def byteEscape (q : Nat) (b : Nat) : List Char :=
  if b = 92 then ['\\', '\\']
  else if b = q then ['\\', Char.ofNat q]
  else if b = 9 then ['\\', 't']
  else if b = 10 then ['\\', 'n']
  else if b = 13 then ['\\', 'r']
  else if 32 ≤ b ∧ b ≤ 126 then [Char.ofNat b]
  else
    let hx := fun (n : Nat) => if n < 10 then Char.ofNat (48 + n) else Char.ofNat (87 + n)
    ['\\', 'x', hx (b / 16), hx (b % 16)]

/-- Python `repr` of a byte string: `b'...'`, switching to double quotes
when the bytes contain a single quote but no double quote. -/
def bytesRepr (bs : List Nat) : String :=
  let useDouble := bs.contains 39 ∧ ¬ bs.contains 34
  let q : Nat := if useDouble then 34 else 39
  String.mk ('b' :: Char.ofNat q :: (bs.map (byteEscape q)).flatten ++ [Char.ofNat q])

/-! ## External collaborators (`Env`) and payload normalization -/

/-- A transport response: headers, the body chunk stream, and an optional
fault raised mid-stream by `resp.read`. -/
structure Response where
  headers : List (String × String)
  body : ChunkIter

/-- Structural metadata of a ZIP entry — exactly the fields the repack
loop copies from the source `ZipInfo` onto the fresh one (`date_time`,
attribute bits, versions, flags, volume, comment, extra bytes). -/
structure ZipMeta where
  date_time : Nat × Nat × Nat × Nat × Nat × Nat
  external_attr : Nat
  internal_attr : Nat
  create_system : Nat
  create_version : Nat
  extract_version : Nat
  flag_bits : Nat
  volume : Nat
  comment : List Nat
  extra : List Nat
  deriving DecidableEq, Repr

/-- One archive entry as the `zipfile` collaborator presents it:
name, uncompressed contents, structural metadata. -/
structure ZipEntry where
  filename : String
  data : List Nat
  meta : ZipMeta
  deriving DecidableEq, Repr

/-- The external collaborators of the pipeline: the injectable HTTP
opener (url ↦ response or transport error), `gzip` stream decompression
(`none` = `BadGzipFile`), and the `zipfile` container validator and
entry codec (`zip_read`/`zip_write` are the library's parse and
serialization of a container's entry list). -/
structure Env where
  opener : String → Except PyErr Response
  gunzip : List Nat → Option (List Nat)
  is_zip : List Nat → Bool
  zip_read : List Nat → Option (List ZipEntry)
  zip_write : List ZipEntry → List Nat

/-- `is_zip_file(path)`: `False` when the file cannot be opened
(`OSError` is swallowed), else the container check on its bytes. -/
def is_zip_file (env : Env) (fs : FS) (p : String) : Bool :=
  match fs p with
  | none => false
  | some b => env.is_zip b

/-- Gzip magic number `b"\x1f\x8b"`. -/
def gzipMagic : List Nat := [0x1f, 0x8b]

/-- `(_header_get(headers, "Content-Encoding") or "").lower().strip()`. -/
def content_encoding_of (headers : List (String × String)) : String :=
  pyStrip (pyLower ((header_get headers "Content-Encoding").getD ""))

/-- The gzip detection of `normalize_to_zip`: magic bytes at the start of
the payload, or `"gzip"` inside the declared Content-Encoding. -/
def is_gzip_payload (headers : List (String × String)) (b : List Nat) : Bool :=
  readFirstBytes b 2 = gzipMagic || containsSubstr (content_encoding_of headers) "gzip"

/-- Message of the `ValueError` raised when the normalized payload is not
a ZIP container, carrying a preview of its first bytes. -/
def notAnArchiveMsg (head : List Nat) : String :=
  "Downloaded payload is not a ZIP/VSIX file after normalization. " ++
  "This usually means the request returned an HTML error page " ++
  "(wrong version / wrong targetPlatform / endpoint changed). " ++
  "First bytes: " ++ bytesRepr head

/-- `normalize_to_zip`: decompress the payload when either gzip signal
fires (streaming into the sibling `.part` file, then rename; a
decompression failure leaves the partially-written temporary behind and
re-raises), otherwise copy the bytes through unchanged via the atomic
writer; finally validate the result is a ZIP container and raise
`ValueError` with a byte preview if not. -/
def normalize_to_zip (env : Env) (src dest : String) (headers : List (String × String)) (fs : FS) :
    Res Unit :=
  match fs src with
  | none => Res.err (PyErr.osError ("No such file or directory: " ++ src)) fs
  | some b =>
    let step : Res Unit :=
      if is_gzip_payload headers b then
        match env.gunzip b with
        | none => Res.err (PyErr.badGzip "Not a gzipped file") (fsWrite fs (partPath dest) [])
        | some out => Res.ok () (fsReplace (fsWrite fs (partPath dest) out) (partPath dest) dest)
      else
        match atomic_write_bytes fs dest (iter_file_chunks b) with
        | Res.ok _ fs1 => Res.ok () fs1
        | Res.err e fs1 => Res.err e fs1
    match step with
    | Res.err e fs1 => Res.err e fs1
    | Res.ok _ fs1 =>
      if is_zip_file env fs1 dest then Res.ok () fs1
      else
        let head := readFirstBytes ((fs1 dest).getD []) 64
        Res.err (PyErr.valueError (notAnArchiveMsg head)) fs1

/-! ## Container repack (`repack_zip`) -/

/-- `ZipInfo.is_dir()`: the entry name ends with a slash. -/
def isDirName (nm : String) : Bool :=
  nm.toList.getLast? = some '/'

/-- `ZipFile.read(name)`: contents of the entry registered under `name`
in the archive's name table — the **last** entry with that name, since
later entries overwrite earlier ones in the table. -/
def readByName (es : List ZipEntry) (nm : String) : Option (List Nat) :=
  (es.reverse.find? (fun e => e.filename = nm)).map ZipEntry.data

/-- The per-entry body of the repack loop: directory entries are written
with empty data, other entries with the bytes `zin.read(info.filename)`
returns; the fresh `ZipInfo` copies the listed structural metadata. -/
def repack_entries (es : List ZipEntry) : List ZipEntry :=
  es.map (fun e =>
    { filename := e.filename
      data := if isDirName e.filename then [] else (readByName es e.filename).getD []
      meta := e.meta })

/-- `repack_zip`: re-check the source is a ZIP container (raising
`ValueError` with a byte preview if not), parse its entries, rewrite them
entry-by-entry into a fresh container at a sibling `.part` path, and
atomically rename it onto the destination. -/
def repack_zip (env : Env) (src dest : String) (fs : FS) : Res Unit :=
  match fs src with
  | none => Res.err (PyErr.osError ("No such file or directory: " ++ src)) fs
  | some sb =>
    if ¬ env.is_zip sb then
      Res.err (PyErr.valueError
        ("Cannot repack: source is not a ZIP file. First bytes: " ++
          bytesRepr (readFirstBytes sb 64))) fs
    else
      match env.zip_read sb with
      | none => Res.err (PyErr.badZip "Bad zip file") fs
      | some es =>
        let out := env.zip_write (repack_entries es)
        Res.ok () (fsReplace (fsWrite fs (partPath dest) out) (partPath dest) dest)

/-! ## Pipeline orchestration (`download_vspackage_payload`,
`download_vsix`, `download_many`) -/

/-- `download_vspackage_payload`: open the URL, resolve the final VSIX
filename from the response headers **before** streaming, then stream the
body into the sibling `<final>.vsix.download` file with the atomic
writer.  Returns the final path, the raw download path and the headers. -/
def download_vspackage_payload (env : Env) (url : String) (spec : VsixSpec)
    (destDir : String) (fs : FS) : Res (String × String × List (String × String)) :=
  match env.opener url with
  | Except.error e => Res.err e fs
  | Except.ok resp =>
    match resolve_vsix_filename spec resp.headers with
    | Except.error e => Res.err e fs
    | Except.ok final_name =>
      match ensure_vsix_suffix (destDir ++ "/" ++ final_name) with
      | Except.error e => Res.err e fs
      | Except.ok final_vsix =>
        let raw_download := addExt final_vsix ".download"
        match atomic_write_bytes fs raw_download resp.body with
        | Res.err e fs1 => Res.err e fs1
        | Res.ok _ fs1 => Res.ok (final_vsix, raw_download, resp.headers) fs1

/-- `download_vsix`: build the URL, download the payload, normalize it
into `<final>.vsix.normalized.zip`, produce the final `.vsix` (repacking,
or copying through the atomic writer when `repack` is off), then delete
both intermediates (best-effort; deletion always succeeds in this file
model) and return the final path. -/
def download_vsix (env : Env) (spec : VsixSpec) (destDir : String) (repack : Bool)
    (fs : FS) : Res String :=
  match build_vspackage_url spec MARKETPLACE_VSPACKAGE_BASE with
  | Except.error e => Res.err e fs
  | Except.ok url =>
    match download_vspackage_payload env url spec destDir fs with
    | Res.err e fs1 => Res.err e fs1
    | Res.ok (final_vsix, raw_download, headers) fs1 =>
      let normalized_zip := addExt final_vsix ".normalized.zip"
      match normalize_to_zip env raw_download normalized_zip headers fs1 with
      | Res.err e fs2 => Res.err e fs2
      | Res.ok _ fs2 =>
        let produced : Res Unit :=
          if repack then repack_zip env normalized_zip final_vsix fs2
          else
            match fs2 normalized_zip with
            | none =>
              Res.err (PyErr.osError ("No such file or directory: " ++ normalized_zip)) fs2
            | some nb =>
              let tmp := partPath final_vsix
              match atomic_write_bytes fs2 tmp (iter_file_chunks nb) with
              | Res.err e fs3 => Res.err e fs3
              | Res.ok _ fs3 => Res.ok () (fsReplace fs3 tmp final_vsix)
        match produced with
        | Res.err e fs3 => Res.err e fs3
        | Res.ok _ fs3 =>
          Res.ok final_vsix (fsRemove (fsRemove fs3 raw_download) normalized_zip)

/-- `download_many`: process the specs in order through `download_vsix`,
collecting the produced paths; the first exception aborts the loop and
propagates, discarding the partial list. -/
def download_many (env : Env) (specs : List VsixSpec) (destDir : String) (repack : Bool)
    (fs : FS) : Res (List String) :=
  match specs with
  | [] => Res.ok [] fs
  | s :: rest =>
    match download_vsix env s destDir repack fs with
    | Res.err e fs1 => Res.err e fs1
    | Res.ok p fs1 =>
      match download_many env rest destDir repack fs1 with
      | Res.err e fs2 => Res.err e fs2
      | Res.ok ps fs2 => Res.ok (p :: ps) fs2

/-! ## Helper lemmas -/

/-- Characterization of `splitOnceChar` when the separator occurs: the
parts before and after its first occurrence. -/
lemma splitOnceChar_of_mem (sep : Char) (l : List Char) (h : sep ∈ l) :
    splitOnceChar sep l =
      some (l.takeWhile (· ≠ sep), (l.dropWhile (· ≠ sep)).drop 1) := by
  induction l with
  | nil => cases h
  | cons c cs ih =>
    by_cases hc : c = sep
    · subst hc
      simp [splitOnceChar, List.takeWhile_cons, List.dropWhile_cons]
    · have hmem : sep ∈ cs := by
        rcases List.mem_cons.mp h with h1 | h1
        · exact absurd h1.symm hc
        · exact h1
      simp [splitOnceChar, hc, ih hmem, List.takeWhile_cons, List.dropWhile_cons]

/-- `splitOnceChar` finds nothing when the separator does not occur. -/
lemma splitOnceChar_of_not_mem (sep : Char) (l : List Char) (h : sep ∉ l) :
    splitOnceChar sep l = none := by
  induction l with
  | nil => rfl
  | cons c cs ih =>
    have hc : ¬ c = sep := fun hcc => h (hcc ▸ List.mem_cons_self c cs)
    have hmem : sep ∉ cs := fun hm => h (List.mem_cons_of_mem c hm)
    simp [splitOnceChar, hc, ih hmem]

/-- `splitDot` on an identifier containing a dot yields the parts before
and after the first dot. -/
lemma splitDot_of_mem (s : String) (h : '.' ∈ s.toList) :
    splitDot s = some (beforeChar '.' s, afterChar '.' s) := by
  unfold splitDot beforeChar afterChar
  rw [splitOnceChar_of_mem '.' s.toList h]
  rfl

/-- `splitDot` fails on an identifier with no dot. -/
lemma splitDot_of_not_mem (s : String) (h : '.' ∉ s.toList) :
    splitDot s = none := by
  unfold splitDot
  rw [splitOnceChar_of_not_mem '.' s.toList h]
  rfl

/-- A string never equals itself extended by a non-empty suffix. -/
lemma self_ne_self_append (s t : String) (ht : 0 < t.length) : s ≠ s ++ t := by
  intro h
  have hl := congrArg String.length h
  rw [String.length_append] at hl
  omega

/-- A non-empty prefix makes an appended string non-empty. -/
lemma append_ne_empty_left (s t : String) (hs : 0 < s.length) : s ++ t ≠ "" := by
  intro h
  have hl := congrArg String.length h
  rw [String.length_append] at hl
  have hz : String.length "" = 0 := rfl
  rw [hz] at hl
  omega

/-! ## Claim C10: identifier splitting in the URL builder -/

/-- C10: for every identifier containing at least one dot,
`build_vspackage_url` succeeds, taking the substring before the first dot
as the publisher and everything after the first dot (which may contain
further dots) as the package; identifiers with no dot at all, and only
those, are rejected (with the `ValueError` of tuple unpacking). -/
theorem C10_split_on_first_dot (uid ver : String) (tp : Option String) (base : String) :
    ('.' ∈ uid.toList →
      build_vspackage_url ⟨uid, ver, tp⟩ base =
        Except.ok (vspackage_core_url base (beforeChar '.' uid) (afterChar '.' uid) ver
          ++ platform_query tp))
    ∧ ('.' ∉ uid.toList →
      build_vspackage_url ⟨uid, ver, tp⟩ base =
        Except.error (PyErr.valueError "not enough values to unpack (expected 2, got 1)")) := by
  constructor
  · intro h
    unfold build_vspackage_url
    rw [splitDot_of_mem uid h]
  · intro h
    unfold build_vspackage_url
    rw [splitDot_of_not_mem uid h]

/-- Witness for C10 at the concrete identifier `"a.b.c"` (two dots):
publisher `"a"`, package `"b.c"`. -/
theorem C10_split_on_first_dot_witness :
    build_vspackage_url ⟨"a.b.c", "1", none⟩ "B" =
      Except.ok (vspackage_core_url "B" (beforeChar '.' "a.b.c") (afterChar '.' "a.b.c") "1"
        ++ platform_query none)
    ∧ beforeChar '.' "a.b.c" = "a" ∧ afterChar '.' "a.b.c" = "b.c" :=
  ⟨(C10_split_on_first_dot "a.b.c" "1" none "B").1 (by decide), by decide, by decide⟩

/-! ## Claim C5: URL shape and the platform query parameter -/

/-- C5 counterexample: a spec whose platform qualifier is supplied as the
empty string.  The qualifier is present (not `None`), yet the built URL
carries no `targetPlatform` query parameter, because the source guards
the append with Python truthiness (`if spec.target_platform:`), under
which `""` is falsy.  This falsifies the claim's "if and only if a
platform qualifier was supplied". -/
theorem C5_counterexample :
    (⟨"a.b", "1.0", some ""⟩ : VsixSpec).target_platform ≠ none
    ∧ build_vspackage_url ⟨"a.b", "1.0", some ""⟩ MARKETPLACE_VSPACKAGE_BASE =
        Except.ok (vspackage_core_url MARKETPLACE_VSPACKAGE_BASE "a" "b" "1.0")
    ∧ containsSubstr (vspackage_core_url MARKETPLACE_VSPACKAGE_BASE "a" "b" "1.0")
        "targetPlatform" = false := by
  refine ⟨by decide, by decide, by decide⟩

/-- C5 (amended): for every spec whose identifier splits at a dot, the
built URL is `base/publishers/{publisher}/vsextensions/{package}/{version}/vspackage`
followed by a query string, and that query string is present (non-empty,
equal to `?targetPlatform={qualifier}`) if and only if a **non-empty**
platform qualifier was supplied. -/
theorem C5_amended_url_shape (spec : VsixSpec) (base pub pkg : String)
    (h : splitDot spec.unique_identifier = some (pub, pkg)) :
    build_vspackage_url spec base =
      Except.ok (vspackage_core_url base pub pkg spec.version
        ++ platform_query spec.target_platform)
    ∧ (platform_query spec.target_platform ≠ "" ↔ optTruthy spec.target_platform = true)
    ∧ (optTruthy spec.target_platform = true →
        platform_query spec.target_platform =
          "?targetPlatform=" ++ (spec.target_platform.getD "")) := by
  refine ⟨?_, ?_, ?_⟩
  · unfold build_vspackage_url
    rw [h]
  · cases htp : spec.target_platform with
    | none => simp [platform_query, optTruthy]
    | some s =>
      by_cases hs : s = ""
      · simp [platform_query, optTruthy, hs]
      · simp only [platform_query, optTruthy, hs, if_neg hs]
        constructor
        · intro _
          simpa using hs
        · intro _
          exact append_ne_empty_left "?targetPlatform=" s (by decide)
  · intro ht
    cases htp : spec.target_platform with
    | none => rw [htp] at ht; simp [optTruthy] at ht
    | some s =>
      rw [htp] at ht
      simp only [optTruthy] at ht
      have hs : s ≠ "" := by simpa using ht
      simp [platform_query, hs]

/-- Witness for the amended C5 at a concrete spec with a non-empty
platform qualifier. -/
theorem C5_amended_url_shape_witness :
    build_vspackage_url ⟨"pub.pkg", "1.0.0", some "linux-x64"⟩ "B" =
      Except.ok (vspackage_core_url "B" "pub" "pkg" "1.0.0"
        ++ platform_query (some "linux-x64"))
    ∧ (platform_query (some "linux-x64") ≠ "" ↔ optTruthy (some "linux-x64") = true)
    ∧ (optTruthy (some "linux-x64") = true →
        platform_query (some "linux-x64") = "?targetPlatform=" ++ "linux-x64") :=
  C5_amended_url_shape ⟨"pub.pkg", "1.0.0", some "linux-x64"⟩ "B" "pub" "pkg" (by decide)

/-! ## Claim C9: the platform qualifier defaults to `"linux-x64"` -/

/-- C9: a `VsixSpec` constructed without specifying `target_platform`
carries the default qualifier `"linux-x64"` (not an absent one): the
built URL ends with `?targetPlatform=linux-x64`, the fallback filename is
`{id}-{version}-linux-x64.vsix` (so it ends with `-linux-x64.vsix`), and
only an explicit `None` yields the platform-independent URL. -/
theorem C9_default_platform_linux_x64 (uid ver pub pkg : String)
    (h : splitDot uid = some (pub, pkg)) :
    (VsixSpec.withDefaultPlatform uid ver).target_platform = some "linux-x64"
    ∧ build_vspackage_url (VsixSpec.withDefaultPlatform uid ver) MARKETPLACE_VSPACKAGE_BASE =
        Except.ok (vspackage_core_url MARKETPLACE_VSPACKAGE_BASE pub pkg ver
          ++ "?targetPlatform=linux-x64")
    ∧ default_vsix_name (VsixSpec.withDefaultPlatform uid ver) =
        (uid ++ "-" ++ ver) ++ "-linux-x64.vsix"
    ∧ "-linux-x64.vsix".toList <:+ (default_vsix_name (VsixSpec.withDefaultPlatform uid ver)).toList
    ∧ build_vspackage_url ⟨uid, ver, none⟩ MARKETPLACE_VSPACKAGE_BASE =
        Except.ok (vspackage_core_url MARKETPLACE_VSPACKAGE_BASE pub pkg ver) := by
  have hname : default_vsix_name (VsixSpec.withDefaultPlatform uid ver) =
      (uid ++ "-" ++ ver) ++ "-linux-x64.vsix" := by
    show uid ++ "-" ++ ver ++ ("-" ++ "linux-x64") ++ ".vsix" = (uid ++ "-" ++ ver) ++ "-linux-x64.vsix"
    rw [String.append_assoc (uid ++ "-" ++ ver)]
    rfl
  refine ⟨rfl, ?_, hname, ?_, ?_⟩
  · unfold build_vspackage_url
    show (match splitDot uid with
      | none => Except.error (PyErr.valueError "not enough values to unpack (expected 2, got 1)")
      | some (publisher, package) =>
        Except.ok (vspackage_core_url MARKETPLACE_VSPACKAGE_BASE publisher package ver
          ++ platform_query (some "linux-x64"))) = _
    rw [h]
    rfl
  · rw [hname]
    exact ⟨(uid ++ "-" ++ ver).toList, (String.data_append _ _).symm⟩
  · unfold build_vspackage_url
    show (match splitDot uid with
      | none => Except.error (PyErr.valueError "not enough values to unpack (expected 2, got 1)")
      | some (publisher, package) =>
        Except.ok (vspackage_core_url MARKETPLACE_VSPACKAGE_BASE publisher package ver
          ++ platform_query none)) = _
    rw [h]
    show Except.ok (vspackage_core_url MARKETPLACE_VSPACKAGE_BASE pub pkg ver ++ "") = _
    rw [String.append_empty]

/-- Witness for C9 at `uid = "pub.pkg"`, `ver = "1.0.0"`. -/
theorem C9_default_platform_linux_x64_witness :
    (VsixSpec.withDefaultPlatform "pub.pkg" "1.0.0").target_platform = some "linux-x64"
    ∧ build_vspackage_url (VsixSpec.withDefaultPlatform "pub.pkg" "1.0.0")
        MARKETPLACE_VSPACKAGE_BASE =
        Except.ok (vspackage_core_url MARKETPLACE_VSPACKAGE_BASE "pub" "pkg" "1.0.0"
          ++ "?targetPlatform=linux-x64")
    ∧ default_vsix_name (VsixSpec.withDefaultPlatform "pub.pkg" "1.0.0") =
        ("pub.pkg" ++ "-" ++ "1.0.0") ++ "-linux-x64.vsix"
    ∧ "-linux-x64.vsix".toList <:+
        (default_vsix_name (VsixSpec.withDefaultPlatform "pub.pkg" "1.0.0")).toList
    ∧ build_vspackage_url ⟨"pub.pkg", "1.0.0", none⟩ MARKETPLACE_VSPACKAGE_BASE =
        Except.ok (vspackage_core_url MARKETPLACE_VSPACKAGE_BASE "pub" "pkg" "1.0.0") :=
  C9_default_platform_linux_x64 "pub.pkg" "1.0.0" "pub" "pkg" (by decide)

/-! ## Claim C3: atomic write under a mid-stream fault -/

/-- C3: for every destination path and every chunk producer that raises
`e` after yielding its chunks, `atomic_write_bytes` propagates exactly
`e`, leaves the destination path in its pre-call state (absent or its
prior complete contents — the write happened only on the sibling
temporary), and leaves the `.part` temporary in place holding exactly the
yielded chunks. -/
theorem C3_atomic_write_fault_isolation (fs : FS) (dest : String)
    (chunks : List (List Nat)) (e : PyErr) :
    atomic_write_bytes fs dest ⟨chunks, some e⟩ =
      Res.err e (fsWrite fs (partPath dest) chunks.flatten)
    ∧ (fsWrite fs (partPath dest) chunks.flatten) dest = fs dest
    ∧ (fsWrite fs (partPath dest) chunks.flatten) (partPath dest) = some chunks.flatten := by
  refine ⟨rfl, ?_, ?_⟩
  · have hne : dest ≠ partPath dest :=
      self_ne_self_append dest ".part" (by decide)
    simp [fsWrite, hne]
  · simp [fsWrite]

/-! ## Characterization of `normalize_to_zip` -/

/-- Run of `normalize_to_zip` when the source file holds `b` and the
branch taken (gzip-decompression or plain copy) produces `nb`: the
destination receives `nb` via the temp-then-rename discipline, and the
result is success or the `NotAnArchive` `ValueError` according to the
container check on `nb`. -/
lemma normalize_to_zip_run (env : Env) (fs : FS) (src dest : String)
    (headers : List (String × String)) (b nb : List Nat)
    (hsrc : fs src = some b)
    (hnb : (if is_gzip_payload headers b then env.gunzip b else some b) = some nb) :
    normalize_to_zip env src dest headers fs =
      if env.is_zip nb then
        Res.ok () (fsReplace (fsWrite fs (partPath dest) nb) (partPath dest) dest)
      else
        Res.err (PyErr.valueError (notAnArchiveMsg (nb.take 64)))
          (fsReplace (fsWrite fs (partPath dest) nb) (partPath dest) dest) := by
  have hd : (fsReplace (fsWrite fs (partPath dest) nb) (partPath dest) dest) dest = some nb := by
    simp [fsReplace, fsWrite]
  unfold normalize_to_zip
  rw [hsrc]
  by_cases hsig : is_gzip_payload headers b = true
  · rw [if_pos hsig] at hnb
    simp only [hsig, if_true]
    rw [hnb]
    simp only [is_zip_file, hd, readFirstBytes, Option.getD_some]
  · rw [if_neg hsig] at hnb
    have hb : b = nb := by injection hnb
    subst hb
    simp only [Bool.not_eq_true] at hsig
    simp only [hsig, Bool.false_eq_true, if_false]
    simp only [atomic_write_bytes, iter_file_chunks, List.flatten_cons, List.flatten_nil,
      List.append_nil]
    simp only [is_zip_file, hd, readFirstBytes, Option.getD_some]

/-- Both outcomes of the container validation leave the same filesystem. -/
lemma resFS_ite_same {c : Prop} [Decidable c] (e : PyErr) (F : FS) :
    resFS (if c then Res.ok () F else Res.err e F) = F := by
  by_cases h : c <;> simp [h, resFS]

/-! ## Claim C4: gzip detection and byte-identical copy -/

/-- C4: if the payload's first two bytes are the gzip magic number or the
Content-Encoding header indicates gzip, `normalize_to_zip` writes the
gzip-decompressed stream to the destination (whatever the subsequent
container validation decides); if neither signal is present, the
destination's bytes are identical to the source's bytes. -/
theorem C4_normalize_encoding (env : Env) (fs : FS) (src dest : String)
    (headers : List (String × String)) (b : List Nat) (hsrc : fs src = some b) :
    (∀ out, is_gzip_payload headers b = true → env.gunzip b = some out →
        resFS (normalize_to_zip env src dest headers fs) dest = some out)
    ∧ (is_gzip_payload headers b = false →
        resFS (normalize_to_zip env src dest headers fs) dest = some b) := by
  constructor
  · intro out hsig hgz
    have hrun := normalize_to_zip_run env fs src dest headers b out hsrc
      (by rw [if_pos hsig]; exact hgz)
    rw [hrun, resFS_ite_same]
    simp [fsReplace, fsWrite]
  · intro hsig
    have hrun := normalize_to_zip_run env fs src dest headers b b hsrc (by simp [hsig])
    rw [hrun, resFS_ite_same]
    simp [fsReplace, fsWrite]

/-- Collaborator assignment for the C4 witness: gzip decompression yields
`[9, 9]`, the container check accepts everything. -/
def gzEnv : Env :=
  ⟨fun _ => Except.error (PyErr.transport "offline"), fun _ => some [9, 9],
    fun _ => true, fun _ => none, fun _ => []⟩

/-- Filesystem for the C4 witness: one payload file starting with the
gzip magic number. -/
def gzFS : FS :=
  fun p => if p = "payload.download" then some [31, 139, 7] else none

/-- Witness for C4: on a payload starting with `1f 8b`, the destination
receives the decompressed stream. -/
theorem C4_normalize_encoding_witness :
    resFS (normalize_to_zip gzEnv "payload.download" "n.zip" [] gzFS) "n.zip" = some [9, 9] :=
  (C4_normalize_encoding gzEnv gzFS "payload.download" "n.zip" [] [31, 139, 7]
    (by decide)).1 [9, 9] (by decide) rfl

/-! ## Claim C1: the resolver's output guarantee (failing input) -/

/-- C1 (failing input): the claim promises that for **every** headers
mapping — explicitly including names with surrounding whitespace —
`resolve_vsix_filename` returns a non-empty, separator-free `.vsix` name.
On the server-provided name `". "` the sanitizer yields the bare dot
(whitespace stripped after taking the final path component), and
`ensure_vsix_suffix` then raises `ValueError` from `with_suffix`, because
the path `"."` has an empty name: the resolver raises instead of
returning a name.  The sanitizer's empty-string fallback
(`"download.vsix"`) does not catch this, since `"."` is non-empty. -/
theorem C1_resolver_raises_on_dot_name :
    resolve_vsix_filename ⟨"pub.pkg", "1.0.0", some "linux-x64"⟩
        [("Content-Disposition", "attachment; filename=\". \"")] =
      Except.error (PyErr.valueError (emptyNameMsg "."))
    ∧ safe_filename ". " = "."
    ∧ ensure_vsix_suffix "." = Except.error (PyErr.valueError (emptyNameMsg ".")) := by
  refine ⟨by decide, by decide, by decide⟩

/-! ## Claim C6: the RFC 5987 extended parameter (failing input) -/

/-- C6 (failing input): on the exact header value
`filename*=UTF-8''foo%20bar.vsix` the claim expects `foo bar.vsix`.  The
code parses parameters only from the parts **after** the first `;`, and
its fallback regex requires the literal `filename=` (which `filename*=`
does not contain), so the parser finds no name at all and the resolver
falls back to the spec-derived default filename.  With a leading
`attachment;` part the very same extended parameter **is** decoded, which
shows the bare form is a parsing slip, not an unsupported feature (the
function's own docstring lists `filename*=UTF-8''<urlencoded>` among the
supported forms). -/
theorem C6_extended_param_lost_without_semicolon :
    filename_from_content_disposition (some "filename*=UTF-8\x27\x27foo%20bar.vsix") = none
    ∧ resolve_vsix_filename ⟨"pub.pkg", "1.0.0", some "linux-x64"⟩
        [("Content-Disposition", "filename*=UTF-8\x27\x27foo%20bar.vsix")] =
      Except.ok "pub.pkg-1.0.0-linux-x64.vsix"
    ∧ filename_from_content_disposition
        (some "attachment; filename*=UTF-8\x27\x27foo%20bar.vsix") = some "foo bar.vsix" := by
  refine ⟨by decide, by decide, by decide⟩

/-! ## Repack round-trip lemmas -/

/-- In a list whose entry names are distinct, `find?` by an element's name
returns exactly that element. -/
lemma find?_eq_of_nodup_names (es : List ZipEntry) (e : ZipEntry)
    (hn : (es.map ZipEntry.filename).Nodup) (he : e ∈ es) :
    es.find? (fun x => x.filename = e.filename) = some e := by
  induction es with
  | nil => cases he
  | cons a as ih =>
    rcases List.mem_cons.mp he with h1 | h1
    · subst h1
      simp [List.find?]
    · have hne : a.filename ≠ e.filename := by
        intro hf
        have : e.filename ∈ as.map ZipEntry.filename := List.mem_map_of_mem _ h1
        rw [← hf] at this
        exact (List.nodup_cons.mp hn).1 this
      have := ih (List.nodup_cons.mp hn).2 h1
      simp [List.find?, hne, this]

/-- `ZipFile.read` by name returns an entry's own data when names are
distinct. -/
lemma readByName_of_nodup (es : List ZipEntry) (e : ZipEntry)
    (hn : (es.map ZipEntry.filename).Nodup) (he : e ∈ es) :
    readByName es e.filename = some e.data := by
  unfold readByName
  have hn' : (es.reverse.map ZipEntry.filename).Nodup := by
    rw [List.map_reverse]
    exact List.nodup_reverse.mpr hn
  rw [find?_eq_of_nodup_names es.reverse e hn' (List.mem_reverse.mpr he)]
  rfl

/-- The repack loop preserves entry names (in order). -/
lemma repack_entries_names (es : List ZipEntry) :
    (repack_entries es).map ZipEntry.filename = es.map ZipEntry.filename := by
  unfold repack_entries
  rw [List.map_map]
  rfl

/-! ## Claim C7: repack round-trip -/

/-- Fixed metadata record used by concrete archives in this development. -/
def zm0 : ZipMeta := ⟨(1980, 1, 1, 0, 0, 0), 0, 0, 0, 20, 20, 0, 0, [], []⟩

/-- A structurally valid archive containing a directory entry (name
ending in `/`) that carries non-empty data — legal in the ZIP format. -/
def dirArchive : List ZipEntry := [⟨"d/", [1], zm0⟩]

/-- C7 counterexample: the claim as stated — *every* entry's repacked
contents equal the source entry's — fails on an archive whose directory
entry carries data: the repack loop writes `b""` for directory entries
(`data = b"" if info.is_dir() else zin.read(...)`), so `d/` comes out
with empty contents while the source entry holds `[1]`.  Entry names are
still preserved. -/
theorem C7_counterexample :
    (repack_entries dirArchive).map ZipEntry.filename = dirArchive.map ZipEntry.filename
    ∧ ¬ (∀ e ∈ repack_entries dirArchive, readByName dirArchive e.filename = some e.data)
    ∧ readByName (repack_entries dirArchive) "d/" = some []
    ∧ readByName dirArchive "d/" = some [1] := by
  refine ⟨by decide, by decide, by decide, by decide⟩

/-- C7 (amended): for every structurally valid archive with distinct
entry names, repacking and reading the destination back (through the
archive library's codec, whose parse inverts its serialization) yields
the same entry names in the same order, and every **non-directory**
entry's uncompressed contents equal those of the source entry with that
name; directory entries are rewritten with empty contents. -/
theorem C7_amended_repack_roundtrip (env : Env) (fs : FS) (src dest : String)
    (sb : List Nat) (es : List ZipEntry)
    (hsrc : fs src = some sb)
    (hzip : env.is_zip sb = true)
    (hread : env.zip_read sb = some es)
    (hnodup : (es.map ZipEntry.filename).Nodup)
    (hrt : env.zip_read (env.zip_write (repack_entries es)) = some (repack_entries es)) :
    ∃ fs2, repack_zip env src dest fs = Res.ok () fs2
      ∧ fs2 dest = some (env.zip_write (repack_entries es))
      ∧ ∃ es2, env.zip_read ((fs2 dest).getD []) = some es2
        ∧ es2.map ZipEntry.filename = es.map ZipEntry.filename
        ∧ ∀ e ∈ es, isDirName e.filename = false →
            readByName es2 e.filename = some e.data := by
  refine ⟨fsReplace (fsWrite fs (partPath dest) (env.zip_write (repack_entries es)))
    (partPath dest) dest, ?_, ?_, ?_⟩
  · unfold repack_zip
    rw [hsrc]
    simp only [hzip, not_true, Bool.not_eq_true, if_false]
    rw [hread]
  · simp [fsReplace, fsWrite]
  · have hdest : (fsReplace (fsWrite fs (partPath dest) (env.zip_write (repack_entries es)))
        (partPath dest) dest) dest = some (env.zip_write (repack_entries es)) := by
      simp [fsReplace, fsWrite]
    refine ⟨repack_entries es, ?_, repack_entries_names es, ?_⟩
    · rw [hdest]
      exact hrt
    · intro e he hdir
      have hmem : ZipEntry.mk e.filename
          (if isDirName e.filename then [] else (readByName es e.filename).getD [])
          e.meta ∈ repack_entries es := by
        unfold repack_entries
        exact List.mem_map_of_mem _ he
      have hn2 : ((repack_entries es).map ZipEntry.filename).Nodup := by
        rw [repack_entries_names es]
        exact hnodup
      have := readByName_of_nodup (repack_entries es) _ hn2 hmem
      rw [hdir] at this
      simp only [Bool.false_eq_true, if_false] at this
      rw [readByName_of_nodup es e hnodup he] at this
      simpa using this

/-- Source entries of the C7 witness archive: one regular file and one
(empty) directory entry, with distinct names. -/
def rpSrcEntries : List ZipEntry := [⟨"f.txt", [5, 6], zm0⟩, ⟨"d/", [], zm0⟩]

/-- Collaborator assignment for the C7 witness: a two-point archive codec
whose parse inverts its serialization on the archives involved. -/
def rpEnv : Env :=
  ⟨fun _ => Except.error (PyErr.transport "offline"),
    fun _ => none,
    fun _ => true,
    fun bs => if bs = [0] then some rpSrcEntries
      else if bs = [1] then some (repack_entries rpSrcEntries) else none,
    fun es => if es = repack_entries rpSrcEntries then [1] else [0]⟩

/-- Filesystem for the C7 witness: the source archive serialized at
`"n.zip"`. -/
def rpFS : FS := fun p => if p = "n.zip" then some [0] else none

/-- Witness for the amended C7 at a concrete archive and codec. -/
theorem C7_amended_repack_roundtrip_witness :
    ∃ fs2, repack_zip rpEnv "n.zip" "out.vsix" rpFS = Res.ok () fs2
      ∧ fs2 "out.vsix" = some (rpEnv.zip_write (repack_entries rpSrcEntries))
      ∧ ∃ es2, rpEnv.zip_read ((fs2 "out.vsix").getD []) = some es2
        ∧ es2.map ZipEntry.filename = rpSrcEntries.map ZipEntry.filename
        ∧ ∀ e ∈ rpSrcEntries, isDirName e.filename = false →
            readByName es2 e.filename = some e.data :=
  C7_amended_repack_roundtrip rpEnv rpFS "n.zip" "out.vsix" [0] rpSrcEntries
    (by decide) rfl (by decide) (by decide) (by decide)

/-! ## Claim C8: batch fail-fast -/

/-- C8: `download_many` processes specs strictly in order; when the spec
after a successfully processed prefix raises any error, that error
propagates unchanged, the result carries no partial list, and — since the
result does not depend on the remaining specs at all — no spec after the
failing one is processed. -/
theorem C8_download_many_fail_fast (env : Env) (destDir : String) (rp : Bool)
    (fs fsk fsE : FS) (pre post : List VsixSpec) (s : VsixSpec) (ps : List String) (e : PyErr)
    (hpre : download_many env pre destDir rp fs = Res.ok ps fsk)
    (hfail : download_vsix env s destDir rp fsk = Res.err e fsE) :
    download_many env (pre ++ s :: post) destDir rp fs = Res.err e fsE := by
  induction pre generalizing fs ps with
  | nil =>
    have hfs : fs = fsk := by
      have h := hpre
      unfold download_many at h
      exact (Res.ok.injEq _ _ _ _).mp h |>.2
    subst hfs
    show download_many env (s :: post) destDir rp fs = Res.err e fsE
    unfold download_many
    rw [hfail]
  | cons a as ih =>
    unfold download_many at hpre
    show download_many env (a :: (as ++ s :: post)) destDir rp fs = Res.err e fsE
    unfold download_many
    cases hda : download_vsix env a destDir rp fs with
    | err e1 fs1 =>
      rw [hda] at hpre
      exact Res.noConfusion hpre
    | ok p fs1 =>
      rw [hda] at hpre
      have hpre2 : (match download_many env as destDir rp fs1 with
          | Res.err e2 fs2 => Res.err e2 fs2
          | Res.ok ps2 fs2 => Res.ok (p :: ps2) fs2) = Res.ok ps fsk := hpre
      show (match download_many env (as ++ s :: post) destDir rp fs1 with
        | Res.err e2 fs2 => Res.err e2 fs2
        | Res.ok ps2 fs2 => Res.ok (p :: ps2) fs2) = Res.err e fsE
      cases hrest : download_many env as destDir rp fs1 with
      | err e1 fs2 =>
        rw [hrest] at hpre2
        exact Res.noConfusion hpre2
      | ok ps1 fs2 =>
        rw [hrest] at hpre2
        have hfs2 : fs2 = fsk := (Res.ok.injEq _ _ _ _).mp hpre2 |>.2
        subst hfs2
        rw [ih fs1 ps1 hrest]

/-- Collaborator assignment for the C8 witness: every request fails at
the transport. -/
def failEnv : Env :=
  ⟨fun _ => Except.error (PyErr.transport "connection refused"),
    fun _ => none, fun _ => false, fun _ => none, fun _ => []⟩

/-- The empty filesystem. -/
def emptyFS : FS := fun _ => none

/-- Witness for C8: the first spec's transport failure aborts a two-spec
batch with that very error and no partial results. -/
theorem C8_download_many_fail_fast_witness :
    download_many failEnv
        (([] : List VsixSpec) ++ (⟨"a.b", "1.0", none⟩ : VsixSpec) :: [⟨"c.d", "2.0", none⟩])
        "out" true emptyFS =
      Res.err (PyErr.transport "connection refused") emptyFS :=
  C8_download_many_fail_fast failEnv "out" true emptyFS emptyFS emptyFS []
    [⟨"c.d", "2.0", none⟩] ⟨"a.b", "1.0", none⟩ [] (PyErr.transport "connection refused")
    rfl rfl

/-! ## Claim C2: invalid payloads abort before the final artifact -/

/-- C2: when the downloaded-and-normalized bytes `nb` fail the container
check, `normalize_to_zip` raises the `NotAnArchive` `ValueError` whose
message carries a preview of the normalized file's first 64 bytes, the
whole pipeline propagates that very error (aborting before the
repack/copy step), and the final `.vsix` artifact path holds exactly what
it held before the call — it is never created or modified. -/
theorem C2_nonzip_aborts_pipeline (env : Env) (fs : FS) (spec : VsixSpec)
    (destDir : String) (rp : Bool) (url nm fv : String) (resp : Response) (nb : List Nat)
    (hurl : build_vspackage_url spec MARKETPLACE_VSPACKAGE_BASE = Except.ok url)
    (hopen : env.opener url = Except.ok resp)
    (hfault : resp.body.fault = none)
    (hname : resolve_vsix_filename spec resp.headers = Except.ok nm)
    (hfv : ensure_vsix_suffix (destDir ++ "/" ++ nm) = Except.ok fv)
    (hnb : (if is_gzip_payload resp.headers resp.body.chunks.flatten
        then env.gunzip resp.body.chunks.flatten
        else some resp.body.chunks.flatten) = some nb)
    (hzip : env.is_zip nb = false) :
    ∃ fs1 fsN,
      download_vspackage_payload env url spec destDir fs =
        Res.ok (fv, addExt fv ".download", resp.headers) fs1
      ∧ normalize_to_zip env (addExt fv ".download") (addExt fv ".normalized.zip")
          resp.headers fs1 =
        Res.err (PyErr.valueError (notAnArchiveMsg (nb.take 64))) fsN
      ∧ download_vsix env spec destDir rp fs =
        Res.err (PyErr.valueError (notAnArchiveMsg (nb.take 64))) fsN
      ∧ fsN fv = fs fv := by
  refine ⟨fsReplace (fsWrite fs (partPath (addExt fv ".download")) resp.body.chunks.flatten)
      (partPath (addExt fv ".download")) (addExt fv ".download"),
    fsReplace
      (fsWrite
        (fsReplace (fsWrite fs (partPath (addExt fv ".download")) resp.body.chunks.flatten)
          (partPath (addExt fv ".download")) (addExt fv ".download"))
        (partPath (addExt fv ".normalized.zip")) nb)
      (partPath (addExt fv ".normalized.zip")) (addExt fv ".normalized.zip"), ?_, ?_, ?_, ?_⟩
  case refine_1 =>
    unfold download_vspackage_payload
    simp only [hopen, hname, hfv, atomic_write_bytes, hfault]
  case refine_2 =>
    have hsrc1 : (fsReplace (fsWrite fs (partPath (addExt fv ".download"))
        resp.body.chunks.flatten) (partPath (addExt fv ".download")) (addExt fv ".download"))
        (addExt fv ".download") = some resp.body.chunks.flatten := by
      simp [fsReplace, fsWrite]
    rw [normalize_to_zip_run env _ (addExt fv ".download") (addExt fv ".normalized.zip")
      resp.headers resp.body.chunks.flatten nb hsrc1 hnb]
    simp [hzip]
  case refine_3 =>
    have hpayload : download_vspackage_payload env url spec destDir fs =
        Res.ok (fv, addExt fv ".download", resp.headers)
          (fsReplace (fsWrite fs (partPath (addExt fv ".download")) resp.body.chunks.flatten)
            (partPath (addExt fv ".download")) (addExt fv ".download")) := by
      unfold download_vspackage_payload
      simp only [hopen, hname, hfv, atomic_write_bytes, hfault]
    have hsrc1 : (fsReplace (fsWrite fs (partPath (addExt fv ".download"))
        resp.body.chunks.flatten) (partPath (addExt fv ".download")) (addExt fv ".download"))
        (addExt fv ".download") = some resp.body.chunks.flatten := by
      simp [fsReplace, fsWrite]
    have hnorm := normalize_to_zip_run env _ (addExt fv ".download")
      (addExt fv ".normalized.zip") resp.headers resp.body.chunks.flatten nb hsrc1 hnb
    unfold download_vsix
    simp only [hurl, hpayload, hnorm, hzip, Bool.false_eq_true, if_false]
  case refine_4 =>
    have hne1 : fv ≠ (fv ++ ".normalized.zip") :=
      self_ne_self_append fv ".normalized.zip" (by decide)
    have hne2 : fv ≠ (fv ++ ".normalized.zip") ++ ".part" := by
      rw [String.append_assoc]
      exact self_ne_self_append fv (".normalized.zip" ++ ".part") (by decide)
    have hne3 : fv ≠ (fv ++ ".download") :=
      self_ne_self_append fv ".download" (by decide)
    have hne4 : fv ≠ (fv ++ ".download") ++ ".part" := by
      rw [String.append_assoc]
      exact self_ne_self_append fv (".download" ++ ".part") (by decide)
    simp only [fsReplace, fsWrite, partPath, addExt]
    simp only [if_neg hne1, if_neg hne2, if_neg hne3, if_neg hne4]

/-- Transport response of the C2 witness: an HTML error page body with no
Content-Disposition header. -/
def htmlResp : Response := ⟨[("Content-Type", "text/html")], ⟨[[60, 104, 116, 109, 108]], none⟩⟩

/-- Collaborator assignment for the C2 witness: every request yields the
HTML page, and the container check rejects everything. -/
def htmlEnv : Env :=
  ⟨fun _ => Except.ok htmlResp, fun _ => none, fun _ => false, fun _ => none, fun _ => []⟩

/-- Witness for C2: downloading `a.b@1.0` through the HTML-returning
transport aborts with the `NotAnArchive` error and leaves the final path
absent. -/
theorem C2_nonzip_aborts_pipeline_witness :
    ∃ fs1 fsN,
      download_vspackage_payload htmlEnv
          (vspackage_core_url MARKETPLACE_VSPACKAGE_BASE "a" "b" "1.0" ++ platform_query none)
          ⟨"a.b", "1.0", none⟩ "out" emptyFS =
        Res.ok ("out/a.b-1.0.vsix", addExt "out/a.b-1.0.vsix" ".download", htmlResp.headers) fs1
      ∧ normalize_to_zip htmlEnv (addExt "out/a.b-1.0.vsix" ".download")
          (addExt "out/a.b-1.0.vsix" ".normalized.zip") htmlResp.headers fs1 =
        Res.err (PyErr.valueError
          (notAnArchiveMsg (([60, 104, 116, 109, 108] : List Nat).take 64))) fsN
      ∧ download_vsix htmlEnv ⟨"a.b", "1.0", none⟩ "out" true emptyFS =
        Res.err (PyErr.valueError
          (notAnArchiveMsg (([60, 104, 116, 109, 108] : List Nat).take 64))) fsN
      ∧ fsN "out/a.b-1.0.vsix" = emptyFS "out/a.b-1.0.vsix" :=
  C2_nonzip_aborts_pipeline htmlEnv emptyFS ⟨"a.b", "1.0", none⟩ "out" true
    (vspackage_core_url MARKETPLACE_VSPACKAGE_BASE "a" "b" "1.0" ++ platform_query none)
    "a.b-1.0.vsix" "out/a.b-1.0.vsix" htmlResp [60, 104, 116, 109, 108]
    (by decide) rfl rfl (by decide) (by decide) (by decide) rfl
